import Mathlib

/- Verification of the text-analysis pipeline of the AI-Text-Summarizer web
   application: keyword extraction, sentiment labelling, request validation,
   summarization metadata and batch orchestration.  Python floats are
   modelled by rationals, Python dictionaries keyed by insertion order by
   association lists, and the external LLM provider and the lexical
   sentiment backend by explicit function parameters. -/
/-- ASCII model of the regex character class of word characters
(letters, digits and the underscore). -/
def isWordChar (c : Char) : Bool := c.isAlphanum || c = '_'

/-- Model of text.lower() followed by the regex substitution that removes
every character that is neither a word character nor whitespace
(enhanced_agent.py line 134). -/
def cleanText (s : String) : String :=
  String.mk ((s.toList.map Char.toLower).filter (fun c => isWordChar c || c.isWhitespace))

/-- Helper for whitespace splitting, accumulating the current word in
reverse order. -/
def splitWsAux : List Char → List Char → List String
  | [], acc => if acc.isEmpty then [] else [String.mk acc.reverse]
  | c :: cs, acc =>
    if c.isWhitespace then
      if acc.isEmpty then splitWsAux cs []
      else String.mk acc.reverse :: splitWsAux cs []
    else splitWsAux cs (c :: acc)

/-- Model of Python str.split() with no argument: split on runs of
whitespace, discarding empty fragments. -/
def pySplit (s : String) : List String := splitWsAux s.toList []

/-- Model of Python str.strip(): remove leading and trailing whitespace. -/
def pyStrip (s : String) : String :=
  String.mk (((s.toList.dropWhile Char.isWhitespace).reverse.dropWhile Char.isWhitespace).reverse)

/-- The fixed stop-word set of extract_keywords (enhanced_agent.py lines
138-145; the duplicated entries of the source literal are kept). -/
def stop_words : List String :=
  ["the", "a", "an", "and", "or", "but", "in", "on", "at", "to", "for", "of", "with", "by",
   "is", "are", "was", "were", "be", "been", "being", "have", "has", "had", "do", "does", "did",
   "will", "would", "could", "should", "may", "might", "must", "can", "this", "that", "these", "those",
   "i", "you", "he", "she", "it", "we", "they", "me", "him", "her", "us", "them", "my", "your", "his",
   "her", "its", "our", "their", "from", "up", "about", "into", "through", "during", "before", "after",
   "above", "below", "between", "among", "through", "during", "before", "after", "above", "below"]

/-- One step of frequency counting: increment the entry of w if present,
otherwise append (w, 1) at the end.  This models the insertion-ordered
Python dictionary update word_freq[word] = word_freq.get(word, 0) + 1. -/
def bump (w : String) : List (String × Nat) → List (String × Nat)
  | [] => [(w, 1)]
  | (x, n) :: rest => if x = w then (x, n + 1) :: rest else (x, n) :: bump w rest

/-- Frequency counting over a word list, in first-occurrence key order
(enhanced_agent.py lines 151-153). -/
def countFreq (ws : List String) : List (String × Nat) :=
  ws.foldl (fun acc w => bump w acc) []

/-- The comparison used to rank keyword entries: descending by count. -/
def byCountDesc (p q : String × Nat) : Prop := q.2 ≤ p.2

instance : DecidableRel byCountDesc :=
  fun p q => inferInstanceAs (Decidable (q.2 ≤ p.2))

instance : IsTotal (String × Nat) byCountDesc :=
  ⟨fun a b => le_total b.2 a.2⟩

instance : IsTrans (String × Nat) byCountDesc :=
  ⟨fun _ _ _ h1 h2 => le_trans h2 h1⟩

/-- Stable sort of the frequency entries, descending by count; models
Python's stable sorted(..., key=count, reverse=True). -/
def sortDesc (l : List (String × Nat)) : List (String × Nat) :=
  List.insertionSort byCountDesc l

/-- Model of the Python slice l[:n] for an int n: a negative stop counts
from the end of the list. -/
def pySliceTake (n : Int) (l : List α) : List α :=
  if n < 0 then l.take (l.length - (-n).toNat) else l.take n.toNat

/-- The tokens of extract_keywords that survive the stop-word and length
filter (enhanced_agent.py line 148). -/
def filteredWords (text : String) : List String :=
  (pySplit (cleanText text)).filter
    (fun w => !(stop_words.contains w) && decide (3 < w.length))

/-- The ranked frequency entries of extract_keywords before truncation
(enhanced_agent.py line 156). -/
def rankedKeywords (text : String) : List (String × Nat) :=
  sortDesc (countFreq (filteredWords text))

/-- EnhancedTextSummarizerAgent.extract_keywords (enhanced_agent.py lines
121-157), on the success path: clean, split, filter, count, stable-sort
descending, truncate, project the words. -/
def extract_keywords (text : String) (max_keywords : Int) : List String :=
  (pySliceTake max_keywords (rankedKeywords text)).map Prod.fst

/-- The keyword algorithm as the specification words it: lowercase, strip
punctuation, split on whitespace, discard tokens that are in the stop-word
set or shorter than 4 characters, count frequencies, sort descending by
count with stable first-occurrence tie-break, truncate to max_keywords. -/
def extractKeywordsSpec (text : String) (max_keywords : Int) : List String :=
  pySliceTake max_keywords
    ((sortDesc (countFreq
      ((pySplit (cleanText text)).filter
        (fun w => !(stop_words.contains w || decide (w.length < 4)))))).map Prod.fst)

/-- The frequency of a word among the filtered tokens of a text. -/
def freqIn (text : String) (w : String) : Nat := (filteredWords text).count w

/-- Python's round-half-to-even on rationals: the integer nearest to q,
ties resolved towards the even integer. -/
def roundHalfEven (q : ℚ) : Int :=
  if Int.fract q < 1 / 2 then ⌊q⌋
  else if 1 / 2 < Int.fract q then ⌊q⌋ + 1
  else if ⌊q⌋ % 2 = 0 then ⌊q⌋ else ⌊q⌋ + 1

/-- Model of Python round(q, ndigits) on the rational model of floats. -/
def pyRound (q : ℚ) (ndigits : Nat) : ℚ :=
  (roundHalfEven (q * (10 : ℚ) ^ ndigits) : ℚ) / (10 : ℚ) ^ ndigits

/-- round(q, 3), as used by analyze_sentiment. -/
def round3 (q : ℚ) : ℚ := pyRound q 3

/-- round(q, 2), as used by summarize for the compression ratio. -/
def round2 (q : ℚ) : ℚ := pyRound q 2

/-- The three sentiment labels of the agent. -/
inductive SentLabel where
  | positive
  | negative
  | neutral
  deriving DecidableEq, Repr

/-- The positive threshold of the sentiment_labels configuration table
(enhanced_agent.py line 44). -/
def positiveThreshold : ℚ := 1 / 10

/-- The negative threshold of the sentiment_labels configuration table
(enhanced_agent.py line 45). -/
def negativeThreshold : ℚ := -(1 / 10)

/-- The label assignment of analyze_sentiment (enhanced_agent.py lines
68-73). -/
def sentimentLabelOf (polarity : ℚ) : SentLabel :=
  if polarity > positiveThreshold then .positive
  else if polarity < negativeThreshold then .negative
  else .neutral

/-- The emoji column of the sentiment_labels table. -/
def emojiOf : SentLabel → String
  | .positive => "😊"
  | .negative => "😞"
  | .neutral => "😐"

/-- The color column of the sentiment_labels table. -/
def colorOf : SentLabel → String
  | .positive => "success"
  | .negative => "danger"
  | .neutral => "secondary"

/-- The polarity band of _get_sentiment_description (enhanced_agent.py
lines 100-109). -/
def polarityDescription (polarity : ℚ) : String :=
  if polarity > 1 / 2 then "very positive"
  else if polarity > 1 / 10 then "positive"
  else if polarity < -(1 / 2) then "very negative"
  else if polarity < 0 then "negative"
  else "neutral"

/-- The subjectivity band of _get_sentiment_description (enhanced_agent.py
lines 112-117). -/
def subjectivityDescription (subjectivity : ℚ) : String :=
  if subjectivity > 7 / 10 then "highly subjective"
  else if subjectivity > 3 / 10 then "moderately subjective"
  else "objective"

/-- EnhancedTextSummarizerAgent._get_sentiment_description
(enhanced_agent.py lines 97-119). -/
def get_sentiment_description (polarity subjectivity : ℚ) : String :=
  "The text is " ++ polarityDescription polarity ++ " and " ++
    subjectivityDescription subjectivity ++ "."

/-- The fields of a successful analyze_sentiment result
(enhanced_agent.py lines 81-89). -/
structure SentimentOk where
  polarity : ℚ
  subjectivity : ℚ
  sentiment : SentLabel
  emoji : String
  color : String
  confidence : ℚ
  description : String
  deriving DecidableEq, Repr

/-- An analyze_sentiment result: either the full analysis or the error
dictionary of the except branch (whose sentiment field is 'unknown'). -/
inductive SentimentResult where
  | ok (r : SentimentOk)
  | err (message : String)
  deriving DecidableEq, Repr

/-- EnhancedTextSummarizerAgent.analyze_sentiment (enhanced_agent.py lines
49-95).  The TextBlob call is modelled by its outcome: either the
polarity/subjectivity pair it computes or the exception message it
raises. -/
def analyze_sentiment (blob : Except String (ℚ × ℚ)) : SentimentResult :=
  match blob with
  | .error e => .err ("Failed to analyze sentiment: " ++ e)
  | .ok (p, s) =>
    let label := sentimentLabelOf p
    .ok { polarity := round3 p
          subjectivity := round3 s
          sentiment := label
          emoji := emojiOf label
          color := colorOf label
          confidence := round3 |p|
          description := get_sentiment_description p s }

/-- The fields of a successful summarize result (enhanced_agent.py lines
250-257). -/
structure SummaryOk where
  summary : String
  original_length : Nat
  summary_length : Nat
  compression_ratio : ℚ
  model_used : String
  style : String
  deriving DecidableEq, Repr

/-- A summarize result: either the metadata dictionary or the error
dictionary of the except branch (whose summary field is None). -/
inductive SummaryResult where
  | ok (r : SummaryOk)
  | err (message : String)
  deriving DecidableEq, Repr

/-- The user prompt built by summarize (enhanced_agent.py lines 218-232).
Python's truthiness test if max_length also rejects the integer 0. -/
def build_user_prompt (text : String) (max_length : Option Int) (style : String) : String :=
  let p := "Please summarize the following text"
  let p :=
    match max_length with
    | some n => if n ≠ 0 then p ++ " in approximately " ++ toString n ++ " words" else p
    | none => p
  let p :=
    if style = "bullet_points" then p ++ " using bullet points"
    else if style = "casual" then p ++ " in a casual, conversational tone"
    else if style = "technical" then p ++ " focusing on technical details and terminology"
    else p ++ " in a professional tone"
  p ++ ":\n\n" ++ text

/-- EnhancedTextSummarizerAgent.summarize (enhanced_agent.py lines
204-263).  The chat-completion call is modelled by a provider function
from the user prompt to either the raised transport/provider error
message or the returned summary text.  A summary with zero
whitespace-separated words makes the Python code raise ZeroDivisionError
inside the try block, which the except branch turns into the error
dictionary. -/
def summarize (provider : String → Except String String) (model_name text : String)
    (max_length : Option Int) (style : String) : SummaryResult :=
  match provider (build_user_prompt text max_length style) with
  | .error e => .err ("Failed to summarize text: " ++ e)
  | .ok summary =>
    if (pySplit summary).length = 0 then .err "Failed to summarize text: division by zero"
    else
      .ok { summary := summary
            original_length := (pySplit text).length
            summary_length := (pySplit summary).length
            compression_ratio :=
              round2 (((pySplit text).length : ℚ) / ((pySplit summary).length : ℚ))
            model_used := model_name
            style := style }

/-- The response dictionary of summarize_with_analysis: the summarize
dictionary together with the timestamp and the optionally requested
sentiment and keyword entries. -/
structure AnalysisResult where
  base : SummaryResult
  timestamp : String
  sentiment_analysis : Option SentimentResult
  keywords : Option (List String)
  deriving DecidableEq, Repr

/-- EnhancedTextSummarizerAgent.summarize_with_analysis (enhanced_agent.py
lines 162-202).  The wall clock behind datetime.now() is modelled by the
now parameter, the TextBlob backend by the blob function. -/
def summarize_with_analysis (provider : String → Except String String)
    (blob : String → Except String (ℚ × ℚ)) (model_name now text : String)
    (max_length : Option Int) (style : String)
    (include_sentiment include_keywords : Bool) : AnalysisResult :=
  { base := summarize provider model_name text max_length style
    timestamp := now
    sentiment_analysis :=
      if include_sentiment then some (analyze_sentiment (blob text)) else none
    keywords := if include_keywords then some (extract_keywords text 10) else none }

/-- EnhancedTextSummarizerAgent.batch_summarize (enhanced_agent.py lines
265-281): the sequential per-item loop, one result slot appended per
input text. -/
def batch_summarize (provider : String → Except String String)
    (blob : String → Except String (ℚ × ℚ)) (model_name now : String)
    (texts : List String) (max_length : Option Int) (style : String)
    (include_sentiment include_keywords : Bool) : List AnalysisResult :=
  texts.map (fun t =>
    summarize_with_analysis provider blob model_name now t max_length style
      include_sentiment include_keywords)

/-- A JSON value as Flask's request.get_json() hands it to the endpoint
code, restricted to the shapes the validators inspect.  Python decodes
JSON numbers as int or float, which int() treats differently, so the two
are separate constructors. -/
inductive JsonVal where
  | int (n : Int)
  | float (q : ℚ)
  | str (s : String)
  | jbool (b : Bool)
  | jnull
  | jlist (xs : List JsonVal)

/-- True exactly on values that Python's json module decodes to int
(bool excluded: json decodes true/false to bool). -/
def isIntJson : JsonVal → Bool
  | .int _ => true
  | _ => false

/-- True exactly on values that Python's json module decodes to list. -/
def isListJson : JsonVal → Bool
  | .jlist _ => true
  | _ => false

/-- True exactly on JSON null. -/
def isNullJson : JsonVal → Bool
  | .jnull => true
  | _ => false

/-- Truncation of a rational towards zero, the behaviour of Python's
int() on a float. -/
def truncQ (q : ℚ) : Int := if 0 ≤ q then ⌊q⌋ else ⌈q⌉

/-- The numeric value of a digit string. -/
def digitsVal (ds : List Char) : Int :=
  ds.foldl (fun a c => a * 10 + (c.toNat - 48 : Int)) 0

/-- Model of Python int(s) on a string: surrounding whitespace and one
optional sign are allowed around a non-empty digit run; anything else
raises ValueError. -/
def parseIntStr (s : String) : Option Int :=
  let cs := s.toList.dropWhile Char.isWhitespace
  let cs := (cs.reverse.dropWhile Char.isWhitespace).reverse
  match cs with
  | [] => none
  | c :: rest =>
    let signed : Int × List Char :=
      if c = '-' then (-1, rest) else if c = '+' then (1, rest) else (1, c :: rest)
    if signed.2 ≠ [] ∧ signed.2.all Char.isDigit then some (signed.1 * digitsVal signed.2)
    else none

/-- Model of Python int(v) on a decoded JSON value: ints pass through,
floats truncate towards zero, strings parse, bools map to 0/1, and null
or containers raise (TypeError), modelled as none. -/
def pyInt : JsonVal → Option Int
  | .int n => some n
  | .float q => some (truncQ q)
  | .str s => parseIntStr s
  | .jbool b => some (if b then 1 else 0)
  | _ => none

/-- The max_length validation of api_summarize (app.py lines 70-83).
data.get returns None both for an absent field and for an explicit null,
and the is-not-None guard then skips validation; otherwise int() coercion
is attempted and the coerced value is range-checked. -/
def validate_max_length : Option JsonVal → Except String (Option Int)
  | none => .ok none
  | some .jnull => .ok none
  | some j =>
    match pyInt j with
    | none => .error "Invalid max_length value"
    | some n =>
      if n < 10 ∨ 1000 < n then .error "Max length must be between 10 and 1000 words"
      else .ok (some n)

/-- The texts validation of api_batch_summarize (app.py lines 153-170):
missing field, non-list, empty list and lists of more than 10 items are
rejected with the corresponding 400 messages. -/
def api_batch_validate : Option JsonVal → Except String (List JsonVal)
  | none => .error "No texts provided"
  | some (.jlist xs) =>
    if xs.length = 0 then .error "Texts must be a non-empty list"
    else if 10 < xs.length then .error "Maximum 10 texts allowed per batch"
    else .ok xs
  | some _ => .error "Texts must be a non-empty list"

/-- An HTTP endpoint outcome: a success payload or an error envelope with
its status code. -/
inductive ApiResp (α : Type) where
  | ok (val : α)
  | err (code : Nat) (message : String)
  deriving DecidableEq, Repr

/-- The per-request text validation shared by api_summarize,
api_sentiment and api_keywords (app.py lines 51-62): a missing field is a
400, a present string is stripped and rejected with a 400 when empty, and
a non-string field makes .strip() raise, which the endpoint's outer
except turns into a 500. -/
def single_text_validation : Option JsonVal → ApiResp String
  | none => .err 400 "No text provided"
  | some (.str s) =>
    let t := pyStrip s
    if t = "" then .err 400 "Empty text provided" else .ok t
  | some _ => .err 500 "An unexpected error occurred"

/-- The outcome of using a decoded JSON value as the stop of a Python
slice l[:v]: None keeps the whole list, ints and bools are indices, and
everything else raises TypeError. -/
def sliceIndex : JsonVal → Except String (Option Int)
  | .jnull => .ok none
  | .int n => .ok (some n)
  | .jbool b => .ok (some (if b then 1 else 0))
  | _ => .error "slice indices must be integers or None or have an __index__ method"

/-- extract_keywords as called with the raw, unvalidated max_keywords
value from the request (enhanced_agent.py lines 121-160): the slice
keywords[:max_keywords] either succeeds, or raises TypeError, which the
except branch turns into a one-element list holding the error message. -/
def extract_keywords_dyn (text : String) (mk : JsonVal) : List String :=
  match sliceIndex mk with
  | .error e => ["Error extracting keywords: " ++ e]
  | .ok none => (rankedKeywords text).map Prod.fst
  | .ok (some n) => (pySliceTake n (rankedKeywords text)).map Prod.fst

/-- The api_keywords endpoint (app.py lines 250-283): text is validated,
max_keywords is read with default 10 and passed to extract_keywords
unchecked, and the extraction result is returned with success true. -/
def api_keywords (text_field mk_field : Option JsonVal) : ApiResp (List String) :=
  match single_text_validation text_field with
  | .err c m => .err c m
  | .ok t => .ok (extract_keywords_dyn t (mk_field.getD (.int 10)))

/-- The invariant of the word_freq dictionary after counting the word
list named seen: keys are distinct, each entry holds the number of
occurrences of its key in seen, and absent keys do not occur in seen. -/
def FreqInv (acc : List (String × Nat)) (seen : List String) : Prop :=
  (acc.map Prod.fst).Nodup ∧ (∀ p ∈ acc, p.2 = seen.count p.1) ∧
    ∀ v : String, ¬ v ∈ acc.map Prod.fst → seen.count v = 0

/-- Modelled from the spec: the fixed word-level, rule-based lexical
sentiment model (the TextBlob backend, which is not part of this
repository) that analyze_sentiment delegates the polarity/subjectivity
computation to.  Word entries of a fixed lexicon are looked up and the
matches averaged; the lexicon here is a representative fixed fragment.
The claims about it need only that it is a fixed pure function of the
text. -/
def sentimentLexicon : List (String × (ℚ × ℚ)) :=
  [("love", (1 / 2, 3 / 5)), ("incredible", (9 / 10, 9 / 10)),
   ("amazing", (3 / 5, 9 / 10)), ("excited", (3 / 8, 3 / 4)),
   ("concerned", (-(1 / 5), 3 / 5)), ("terrible", (-1, 1)),
   ("good", (7 / 10, 3 / 5)), ("bad", (-(7 / 10), 2 / 3)),
   ("great", (4 / 5, 3 / 4)), ("careful", (-(1 / 10), 1))]

/-- Modelled from the spec: polarity and subjectivity of a text under the
fixed lexical model, averaging the lexicon entries of its words; a text
with no lexicon hit scores (0, 0). -/
def lexicalSentiment (text : String) : ℚ × ℚ :=
  ((((pySplit (cleanText text)).filterMap (fun w => sentimentLexicon.lookup w)).map
      Prod.fst).sum /
    (((pySplit (cleanText text)).filterMap (fun w => sentimentLexicon.lookup w)).length : ℚ),
   (((pySplit (cleanText text)).filterMap (fun w => sentimentLexicon.lookup w)).map
      Prod.snd).sum /
    (((pySplit (cleanText text)).filterMap (fun w => sentimentLexicon.lookup w)).length : ℚ))

/-- analyze_sentiment as the sentiment endpoint runs it: a function of
the request text alone, with the fixed lexical backend inlined. -/
def analyze_sentiment_text (text : String) : SentimentResult :=
  analyze_sentiment (.ok (lexicalSentiment text))

/-- True when a batch slot holds an error-free summarize result. -/
def isOkBase (r : AnalysisResult) : Bool :=
  match r.base with
  | .ok _ => true
  | .err _ => false

theorem roundHalfEven_nonneg (q : ℚ) (h : 0 ≤ q) : 0 ≤ roundHalfEven q := by
  have hf : (0 : ℤ) ≤ ⌊q⌋ := Int.floor_nonneg.mpr h
  unfold roundHalfEven
  split
  · exact hf
  · split
    · omega
    · split <;> omega

theorem floor_neg_of_fract_ne (q : ℚ) (h : Int.fract q ≠ 0) : ⌊-q⌋ = -⌊q⌋ - 1 := by
  have h1 : ((⌊-q⌋ : ℤ) : ℚ) = -q - Int.fract (-q) := (Int.self_sub_fract (-q)).symm
  have h2 : ((⌊q⌋ : ℤ) : ℚ) = q - Int.fract q := (Int.self_sub_fract q).symm
  rw [Int.fract_neg h] at h1
  have h3 : ((⌊-q⌋ : ℤ) : ℚ) = ((-⌊q⌋ - 1 : ℤ) : ℚ) := by push_cast; linarith
  exact_mod_cast h3

theorem roundHalfEven_neg (q : ℚ) : roundHalfEven (-q) = -roundHalfEven q := by
  by_cases h0 : Int.fract q = 0
  · have hq : ((⌊q⌋ : ℤ) : ℚ) = q := by
      have h1 := Int.floor_add_fract q
      rw [h0, add_zero] at h1
      exact h1
    have hneg : Int.fract (-q) = 0 := Int.fract_neg_eq_zero.mpr h0
    have hfl : ⌊-q⌋ = -⌊q⌋ := by
      have h2 : -q = ((-⌊q⌋ : ℤ) : ℚ) := by
        push_cast
        linarith
      rw [h2, Int.floor_intCast]
    unfold roundHalfEven
    rw [h0, hneg, hfl]
    norm_num
  · have hfl : ⌊-q⌋ = -⌊q⌋ - 1 := floor_neg_of_fract_ne q h0
    have hfr : Int.fract (-q) = 1 - Int.fract q := Int.fract_neg h0
    have hpos : 0 < Int.fract q := lt_of_le_of_ne (Int.fract_nonneg q) (Ne.symm h0)
    have hlt : Int.fract q < 1 := Int.fract_lt_one q
    unfold roundHalfEven
    rw [hfr, hfl]
    split_ifs <;> first | omega | linarith

theorem pyRound_neg (q : ℚ) (n : Nat) : pyRound (-q) n = -pyRound q n := by
  unfold pyRound
  rw [neg_mul, roundHalfEven_neg]
  push_cast
  ring

theorem pyRound_nonneg (q : ℚ) (n : Nat) (h : 0 ≤ q) : 0 ≤ pyRound q n := by
  unfold pyRound
  apply div_nonneg
  · exact_mod_cast roundHalfEven_nonneg _ (by positivity)
  · positivity

theorem abs_round3 (p : ℚ) : |round3 p| = round3 |p| := by
  unfold round3
  rcases le_or_lt 0 p with h | h
  · rw [abs_of_nonneg h, abs_of_nonneg (pyRound_nonneg p 3 h)]
  · have h1 : pyRound p 3 = -pyRound (-p) 3 := by
      rw [pyRound_neg p 3]
      ring
    rw [abs_of_neg h, h1, abs_neg,
      abs_of_nonneg (pyRound_nonneg (-p) 3 (by linarith))]

theorem keys_bump (w : String) (l : List (String × Nat)) :
    (bump w l).map Prod.fst =
      if w ∈ l.map Prod.fst then l.map Prod.fst else l.map Prod.fst ++ [w] := by
  induction l with
  | nil => simp [bump]
  | cons p rest ih =>
    obtain ⟨x, n⟩ := p
    by_cases hxw : x = w
    · subst hxw
      simp [bump]
    · simp only [bump, if_neg hxw, List.map_cons]
      rw [ih]
      by_cases hw : w ∈ rest.map Prod.fst
      · simp [hw, Ne.symm hxw]
      · simp [hw, Ne.symm hxw]

theorem count_bump (w : String) (seen : List String) :
    ∀ l : List (String × Nat), (l.map Prod.fst).Nodup →
      (∀ p ∈ l, p.2 = seen.count p.1) →
      (¬ w ∈ l.map Prod.fst → seen.count w = 0) →
      ∀ p ∈ bump w l, p.2 = (seen ++ [w]).count p.1 := by
  intro l
  induction l with
  | nil =>
    intro _ _ hw p hp
    simp [bump] at hp
    subst hp
    simp [List.count_append, hw]
  | cons q rest ih =>
    obtain ⟨x, n⟩ := q
    intro hnd hc hw p hp
    by_cases hxw : x = w
    · subst hxw
      simp only [bump, if_pos rfl] at hp
      rcases List.mem_cons.mp hp with hp | hp
      · subst hp
        have hn : n = seen.count x := hc (x, n) (List.mem_cons_self _ _)
        simp [List.count_append, hn]
      · have hx : ¬ x ∈ rest.map Prod.fst := by
          simp only [List.map_cons, List.nodup_cons] at hnd
          exact hnd.1
        have hpx : p.1 ≠ x := by
          intro he
          exact hx (he ▸ List.mem_map_of_mem Prod.fst hp)
        have hcp := hc p (List.mem_cons_of_mem _ hp)
        simp [List.count_append, hcp, hpx]
    · simp only [bump, if_neg hxw] at hp
      rcases List.mem_cons.mp hp with hp | hp
      · subst hp
        have hcp : n = seen.count x := hc (x, n) (List.mem_cons_self _ _)
        simp [List.count_append, hcp, hxw]
      · have hnd2 : (rest.map Prod.fst).Nodup := by
          simp only [List.map_cons, List.nodup_cons] at hnd
          exact hnd.2
        refine ih hnd2 (fun q hq => hc q (List.mem_cons_of_mem _ hq)) ?_ p hp
        intro hnw
        apply hw
        simp only [List.map_cons, List.mem_cons]
        rintro (he | he)
        · exact hxw he.symm
        · exact hnw he

theorem bump_freqInv (w : String) (acc : List (String × Nat)) (seen : List String)
    (h : FreqInv acc seen) : FreqInv (bump w acc) (seen ++ [w]) := by
  obtain ⟨hnd, hc, hz⟩ := h
  refine ⟨?_, count_bump w seen acc hnd hc (hz w), ?_⟩
  · rw [keys_bump]
    split
    · exact hnd
    · next hni =>
      simp [List.nodup_append, hnd, hni]
  · intro v hv
    rw [keys_bump] at hv
    by_cases hm : w ∈ acc.map Prod.fst
    · rw [if_pos hm] at hv
      have hvw : v ≠ w := fun he => hv (he ▸ hm)
      simp [List.count_append, hz v hv, hvw]
    · rw [if_neg hm] at hv
      simp only [List.mem_append, List.mem_singleton, not_or] at hv
      obtain ⟨hv1, hv2⟩ := hv
      simp [List.count_append, hz v hv1, hv2]

theorem foldl_freqInv (ws : List String) :
    ∀ acc seen, FreqInv acc seen →
      FreqInv (ws.foldl (fun a w => bump w a) acc) (seen ++ ws) := by
  induction ws with
  | nil =>
    intro acc seen h
    simpa using h
  | cons w ws ih =>
    intro acc seen h
    have h2 := ih (bump w acc) (seen ++ [w]) (bump_freqInv w acc seen h)
    simpa using h2

/-- Every entry of the frequency table holds the exact occurrence count
of its word. -/
theorem countFreq_count (ws : List String) :
    ∀ p ∈ countFreq ws, p.2 = ws.count p.1 := by
  have h := foldl_freqInv ws [] [] ⟨by simp, by simp, by simp⟩
  simpa [countFreq] using h.2.1

theorem pairwise_sortDesc (l : List (String × Nat)) :
    (sortDesc l).Pairwise byCountDesc :=
  List.sorted_insertionSort byCountDesc l

theorem mem_sortDesc (l : List (String × Nat)) (p : String × Nat) :
    p ∈ sortDesc l ↔ p ∈ l :=
  (List.perm_insertionSort byCountDesc l).mem_iff

theorem rankedKeywords_count (text : String) :
    ∀ p ∈ rankedKeywords text, p.2 = freqIn text p.1 := by
  intro p hp
  exact countFreq_count (filteredWords text) p ((mem_sortDesc _ p).mp hp)

theorem rankedKeywords_pairwise (text : String) :
    (rankedKeywords text).Pairwise (fun p q => freqIn text q.1 ≤ freqIn text p.1) := by
  have h := pairwise_sortDesc (countFreq (filteredWords text))
  refine h.imp_of_mem ?_
  intro a b ha hb hab
  rw [← rankedKeywords_count text a ha, ← rankedKeywords_count text b hb]
  exact hab

theorem extract_keywords_pairwise (text : String) (k : Int) :
    (extract_keywords text k).Pairwise (fun a b => freqIn text b ≤ freqIn text a) := by
  have h1 : ((rankedKeywords text).map Prod.fst).Pairwise
      (fun a b => freqIn text b ≤ freqIn text a) :=
    List.pairwise_map.mpr (rankedKeywords_pairwise text)
  unfold extract_keywords pySliceTake
  split
  · exact h1.sublist ((List.take_sublist _ _).map Prod.fst)
  · exact h1.sublist ((List.take_sublist _ _).map Prod.fst)

theorem extract_keywords_length (text : String) (k : Int) (h : 0 ≤ k) :
    (extract_keywords text k).length ≤ k.toNat := by
  unfold extract_keywords pySliceTake
  rw [if_neg (by omega)]
  simp [List.length_take]

theorem filter_cond_eq (w : String) :
    (!(stop_words.contains w) && decide (3 < w.length)) =
      (!(stop_words.contains w || decide (w.length < 4))) := by
  cases hc : stop_words.contains w <;> by_cases h4 : 3 < w.length <;>
    simp [hc, h4] <;> omega

theorem pySliceTake_map (n : Int) (l : List α) (f : α → β) :
    (pySliceTake n l).map f = pySliceTake n (l.map f) := by
  unfold pySliceTake
  rw [List.length_map]
  split <;> rw [List.map_take]

theorem extract_eq_spec (text : String) (k : Int) :
    extract_keywords text k = extractKeywordsSpec text k := by
  unfold extract_keywords extractKeywordsSpec rankedKeywords filteredWords
  have hf : (pySplit (cleanText text)).filter
        (fun w => !(stop_words.contains w) && decide (3 < w.length)) =
      (pySplit (cleanText text)).filter
        (fun w => !(stop_words.contains w || decide (w.length < 4))) :=
    List.filter_congr (fun a _ => filter_cond_eq a)
  rw [hf, pySliceTake_map]

theorem sentimentLabelOf_positive (p : ℚ) :
    sentimentLabelOf p = .positive ↔ 1 / 10 < p := by
  unfold sentimentLabelOf positiveThreshold negativeThreshold
  split_ifs with h1 h2 <;> simp_all

theorem sentimentLabelOf_negative (p : ℚ) :
    sentimentLabelOf p = .negative ↔ p < -(1 / 10) := by
  unfold sentimentLabelOf positiveThreshold negativeThreshold
  split_ifs with h1 h2 <;> simp_all <;> linarith

theorem sentimentLabelOf_neutral (p : ℚ) :
    sentimentLabelOf p = .neutral ↔ -(1 / 10) ≤ p ∧ p ≤ 1 / 10 := by
  unfold sentimentLabelOf positiveThreshold negativeThreshold
  split_ifs with h1 h2 <;> simp_all <;> constructor <;> intro h <;> push_neg at h1 <;>
    first | linarith | (constructor <;> linarith)

/-- C2: analyze_sentiment labels a text positive exactly when the
computed polarity exceeds 0.1, negative exactly when it is below -0.1
and neutral otherwise, and the returned confidence equals the absolute
value of the returned polarity. -/
theorem C2_analyze_sentiment (p s : ℚ) :
    ∃ r, analyze_sentiment (.ok (p, s)) = .ok r ∧
      (r.sentiment = .positive ↔ 1 / 10 < p) ∧
      (r.sentiment = .negative ↔ p < -(1 / 10)) ∧
      (r.sentiment = .neutral ↔ -(1 / 10) ≤ p ∧ p ≤ 1 / 10) ∧
      r.confidence = |r.polarity| :=
  ⟨_, rfl, sentimentLabelOf_positive p, sentimentLabelOf_negative p,
    sentimentLabelOf_neutral p, (abs_round3 p).symm⟩

/-- C8: sentiment scoring is a pure, deterministic function of the text:
two runs on equal input texts return the identical result, in particular
identical polarity, subjectivity and label. -/
theorem C8_sentiment_deterministic (t1 t2 : String) (h : t1 = t2) :
    analyze_sentiment_text t1 = analyze_sentiment_text t2 := by
  rw [h]

theorem C8_sentiment_deterministic_witness :
    ("good day" : String) = "good day" ∧
    analyze_sentiment_text "good day" = analyze_sentiment_text "good day" :=
  ⟨rfl, C8_sentiment_deterministic "good day" "good day" rfl⟩

/-- C9: for every polarity in the band [-0.1, 0) the label is neutral
while the human-readable description calls the text negative, because
the description's negative band (polarity < 0) is wider than the
label's (polarity < -0.1). -/
theorem C9_label_description_disagree (p s : ℚ) (h1 : -(1 / 10) ≤ p) (h2 : p < 0) :
    ∃ r, analyze_sentiment (.ok (p, s)) = .ok r ∧
      r.sentiment = .neutral ∧
      r.description = "The text is negative and " ++ subjectivityDescription s ++ "." := by
  refine ⟨_, rfl, ?_, ?_⟩
  · show sentimentLabelOf p = .neutral
    exact (sentimentLabelOf_neutral p).mpr ⟨h1, by linarith⟩
  · show get_sentiment_description p s = _
    unfold get_sentiment_description
    have hd : polarityDescription p = "negative" := by
      unfold polarityDescription
      rw [if_neg (by linarith), if_neg (by linarith), if_neg (by linarith), if_pos h2]
    rw [hd]
    rfl

theorem C9_label_description_disagree_witness :
    -(1 / 10 : ℚ) ≤ -(1 / 20) ∧ (-(1 / 20) : ℚ) < 0 ∧
    ∃ r, analyze_sentiment (.ok (-(1 / 20), 0)) = .ok r ∧
      r.sentiment = .neutral ∧
      r.description = "The text is negative and " ++ subjectivityDescription 0 ++ "." :=
  ⟨by norm_num, by norm_num,
    C9_label_description_disagree (-(1 / 20)) 0 (by norm_num) (by norm_num)⟩

/-- C1: extract_keywords returns exactly the list of the spec pipeline:
lowercase, strip punctuation, split on whitespace, discard tokens in the
stop-word set or shorter than 4 characters, count frequencies, sort
descending by count with stable first-occurrence tie-break, truncate to
max_keywords; in particular the result has at most max_keywords entries
and its tokens are in non-increasing frequency order. -/
theorem C1_extract_keywords (text : String) (k : Int) (h : 0 ≤ k) :
    extract_keywords text k = extractKeywordsSpec text k ∧
    (extract_keywords text k).length ≤ k.toNat ∧
    (extract_keywords text k).Pairwise (fun a b => freqIn text b ≤ freqIn text a) :=
  ⟨extract_eq_spec text k, extract_keywords_length text k h,
    extract_keywords_pairwise text k⟩

theorem C1_extract_keywords_witness :
    (0 : Int) ≤ 2 ∧
    (extract_keywords "apple banana apple cherry banana apple" 2 =
        extractKeywordsSpec "apple banana apple cherry banana apple" 2 ∧
      (extract_keywords "apple banana apple cherry banana apple" 2).length ≤ (2 : Int).toNat ∧
      (extract_keywords "apple banana apple cherry banana apple" 2).Pairwise
        (fun a b => freqIn "apple banana apple cherry banana apple" b ≤
          freqIn "apple banana apple cherry banana apple" a)) :=
  ⟨by decide, C1_extract_keywords "apple banana apple cherry banana apple" 2 (by decide)⟩

/-- C5: an error-free summarize result reports the whitespace-split word
counts of the input text and of the returned summary together with
compression_ratio = round(original count / summary count, 2); and a
provider run that returns a summary with zero words produces an
error-field result (the caught ZeroDivisionError) instead of a crash. -/
theorem C5_compression_ratio (provider : String → Except String String)
    (model_name text : String) (max_length : Option Int) (style : String) :
    (∀ r, summarize provider model_name text max_length style = .ok r →
        r.original_length = (pySplit text).length ∧
        r.summary_length = (pySplit r.summary).length ∧
        r.compression_ratio =
          round2 ((r.original_length : ℚ) / (r.summary_length : ℚ))) ∧
    (∀ s, provider (build_user_prompt text max_length style) = .ok s →
        (pySplit s).length = 0 →
        summarize provider model_name text max_length style =
          .err "Failed to summarize text: division by zero") := by
  constructor
  · intro r hr
    unfold summarize at hr
    split at hr
    · exact absurd hr (by simp)
    · split at hr
      · exact absurd hr (by simp)
      · cases hr
        exact ⟨rfl, rfl, rfl⟩
  · intro s hs hz
    unfold summarize
    rw [hs]
    show (if (pySplit s).length = 0 then
        SummaryResult.err "Failed to summarize text: division by zero"
      else _) = _
    rw [if_pos hz]

theorem C5_compression_ratio_witness :
    (fun _ => (Except.ok "" : Except String String))
        (build_user_prompt "a b c" none "professional") = Except.ok "" ∧
    (pySplit "").length = 0 ∧
    summarize (fun _ => .ok "") "m" "a b c" none "professional" =
      .err "Failed to summarize text: division by zero" :=
  ⟨rfl, rfl,
    (C5_compression_ratio (fun _ => .ok "") "m" "a b c" none "professional").2 "" rfl rfl⟩

/-- C7: a transport or provider error raised inside summarize and a
backend failure raised inside analyze_sentiment are caught in the
component and surfaced as error-field result dictionaries; the modelled
components are total functions, so no exception escapes to the caller. -/
theorem C7_errors_as_results (provider : String → Except String String)
    (model_name text : String) (max_length : Option Int) (style : String)
    (e b : String)
    (hp : provider (build_user_prompt text max_length style) = .error e) :
    summarize provider model_name text max_length style =
      .err ("Failed to summarize text: " ++ e) ∧
    analyze_sentiment (.error b) = .err ("Failed to analyze sentiment: " ++ b) := by
  constructor
  · unfold summarize
    rw [hp]
  · rfl

theorem C7_errors_as_results_witness :
    (fun _ => (Except.error "boom" : Except String String))
        (build_user_prompt "hi" none "professional") = Except.error "boom" ∧
    (summarize (fun _ => .error "boom") "m" "hi" none "professional" =
        .err ("Failed to summarize text: " ++ "boom") ∧
      analyze_sentiment (.error "nltk") =
        .err ("Failed to analyze sentiment: " ++ "nltk")) :=
  ⟨rfl, C7_errors_as_results (fun _ => .error "boom") "m" "hi" none "professional"
    "boom" "nltk" rfl⟩

/-- C3 counterexample: the empty text is rejected with a 400 by the
single-request validator, but a batch containing only the empty text
passes batch validation and its slot is processed by the pipeline
(successfully, with a cooperative provider) instead of being validated
like a single request. -/
theorem C3_batch_counterexample :
    single_text_validation (some (.str "")) = .err 400 "Empty text provided" ∧
    api_batch_validate (some (.jlist [.str ""])) = .ok [.str ""] ∧
    (batch_summarize (fun _ => .ok "the summary") (fun _ => .ok (0, 0)) "m" "ts"
        [""] none "professional" false false).map isOkBase = [true] :=
  ⟨rfl, rfl, rfl⟩

/-- C3 (amended): batch_summarize applies the per-item pipeline —
Summarization Client, then the optional Sentiment Scorer and Keyword
Extractor — to each text independently and in input order: the result
list has exactly one slot per input text, and slot i is a function of
text i alone, so one item's failure is confined to its own slot.
Per-item request validation is not re-applied in batch mode. -/
theorem C3_batch_sequence (provider : String → Except String String)
    (blob : String → Except String (ℚ × ℚ)) (model_name now : String)
    (texts : List String) (max_length : Option Int) (style : String)
    (incS incK : Bool) (i : Nat) (t : String) (h : texts[i]? = some t) :
    (batch_summarize provider blob model_name now texts max_length style incS incK).length =
        texts.length ∧
    (batch_summarize provider blob model_name now texts max_length style incS incK)[i]? =
      some (summarize_with_analysis provider blob model_name now t max_length style
        incS incK) := by
  constructor
  · simp [batch_summarize]
  · simp [batch_summarize, List.getElem?_map, h]

theorem C3_batch_sequence_witness :
    (["first text", "second text"][1]? = some "second text") ∧
    ((batch_summarize (fun _ => .ok "s") (fun _ => .ok (0, 0)) "m" "ts"
        ["first text", "second text"] none "professional" true true).length = 2 ∧
      (batch_summarize (fun _ => .ok "s") (fun _ => .ok (0, 0)) "m" "ts"
        ["first text", "second text"] none "professional" true true)[1]? =
        some (summarize_with_analysis (fun _ => .ok "s") (fun _ => .ok (0, 0)) "m" "ts"
          "second text" none "professional" true true)) :=
  ⟨rfl, C3_batch_sequence (fun _ => .ok "s") (fun _ => .ok (0, 0)) "m" "ts"
    ["first text", "second text"] none "professional" true true 1 "second text" rfl⟩

/-- C4 counterexample: max_length = 10.5 is not a JSON integer, yet
validation accepts it, because int() truncates it to 10, which is in
range; so the claim that every non-integer max_length fails validation
is false on the code. -/
theorem C4_max_length_counterexample :
    isIntJson (.float (21 / 2)) = false ∧
    validate_max_length (some (.float (21 / 2))) = .ok (some 10) := by
  refine ⟨rfl, ?_⟩
  have h : truncQ (21 / 2) = 10 := by
    unfold truncQ
    rw [if_pos (by norm_num)]
    norm_num
  show (match pyInt (.float (21 / 2)) with
    | none => (Except.error "Invalid max_length value" : Except String (Option Int))
    | some n =>
      if n < 10 ∨ 1000 < n then .error "Max length must be between 10 and 1000 words"
      else .ok (some n)) = .ok (some 10)
  show (match some (truncQ (21 / 2)) with
    | none => (Except.error "Invalid max_length value" : Except String (Option Int))
    | some n =>
      if n < 10 ∨ 1000 < n then .error "Max length must be between 10 and 1000 words"
      else .ok (some n)) = .ok (some 10)
  rw [h]
  norm_num

theorem validate_max_length_not_null (j : JsonVal) (hnull : isNullJson j = false) :
    validate_max_length (some j) =
      match pyInt j with
      | none => .error "Invalid max_length value"
      | some n =>
        if n < 10 ∨ 1000 < n then .error "Max length must be between 10 and 1000 words"
        else .ok (some n) := by
  cases j <;> first | rfl | simp [isNullJson] at hnull

/-- C4 (amended): for a present, non-null max_length, validation fails
with the 400 envelope exactly when int() coercion fails or the coerced
value lies outside [10, 1000]; 5 and 1500 are rejected and 100 accepted,
but non-integer values whose coercion lands in range (such as 10.5 or
the string "100") are accepted, and an explicit null is skipped like an
absent field. -/
theorem C4_max_length_validation (j : JsonVal) (hnull : isNullJson j = false) :
    ((∃ e, validate_max_length (some j) = .error e) ↔
      (pyInt j = none ∨ ∃ n, pyInt j = some n ∧ (n < 10 ∨ 1000 < n))) ∧
    validate_max_length (some (.int 5)) =
      .error "Max length must be between 10 and 1000 words" ∧
    validate_max_length (some (.int 1500)) =
      .error "Max length must be between 10 and 1000 words" ∧
    validate_max_length (some (.int 100)) = .ok (some 100) := by
  refine ⟨?_, rfl, rfl, rfl⟩
  rw [validate_max_length_not_null j hnull]
  cases hp : pyInt j with
  | none => simp
  | some n =>
    by_cases hr : n < 10 ∨ 1000 < n
    · simp [hr]
    · simp [hr]

theorem C4_max_length_validation_witness :
    isNullJson (JsonVal.str "abc") = false ∧
    (((∃ e, validate_max_length (some (.str "abc")) = .error e) ↔
        (pyInt (.str "abc") = none ∨
          ∃ n, pyInt (.str "abc") = some n ∧ (n < 10 ∨ 1000 < n))) ∧
      validate_max_length (some (.int 5)) =
        .error "Max length must be between 10 and 1000 words" ∧
      validate_max_length (some (.int 1500)) =
        .error "Max length must be between 10 and 1000 words" ∧
      validate_max_length (some (.int 100)) = .ok (some 100)) :=
  ⟨rfl, C4_max_length_validation (.str "abc") rfl⟩

/-- C6: batch validation fails with the 400 envelope exactly when the
texts field is missing, not a list, an empty list or a list of more than
10 items; a batch of 11 texts is rejected and a batch of 10 accepted. -/
theorem C6_batch_validation (xs : List JsonVal) :
    api_batch_validate none = .error "No texts provided" ∧
    (∀ j : JsonVal, isListJson j = false → ∃ e, api_batch_validate (some j) = .error e) ∧
    ((∃ e, api_batch_validate (some (.jlist xs)) = .error e) ↔
      xs.length = 0 ∨ 10 < xs.length) ∧
    api_batch_validate (some (.jlist (List.replicate 11 (.str "t")))) =
      .error "Maximum 10 texts allowed per batch" ∧
    api_batch_validate (some (.jlist (List.replicate 10 (.str "t")))) =
      .ok (List.replicate 10 (.str "t")) := by
  refine ⟨rfl, ?_, ?_, rfl, rfl⟩
  · intro j hj
    cases j <;> first | exact ⟨_, rfl⟩ | simp [isListJson] at hj
  · by_cases h0 : xs.length = 0
    · simp [api_batch_validate, h0]
    · by_cases h10 : 10 < xs.length
      · simp [api_batch_validate, h0, h10]
      · simp [api_batch_validate, h0, h10]

theorem C6_batch_validation_witness :
    isListJson (JsonVal.int 3) = false ∧ ∃ e, api_batch_validate (some (.int 3)) = .error e :=
  ⟨rfl, (C6_batch_validation []).2.1 (.int 3) rfl⟩

/-- C10 counterexample: max_keywords = null is a non-integer value for
which the slice keywords[:None] succeeds, so the endpoint returns the
ordinary keyword list (here two entries) with success true, not a
one-element list holding an error message. -/
theorem C10_keywords_counterexample :
    isIntJson JsonVal.jnull = false ∧
    api_keywords (some (.str "alpha beta alpha beta")) (some .jnull) =
      .ok ["alpha", "beta"] :=
  ⟨rfl, by decide⟩

/-- C10 (amended): max_keywords reaches extract_keywords without any
validation, so for a valid text the keywords endpoint always answers
success, never a 400, whatever max_keywords is; when using it as a slice
stop raises TypeError (a string or float, for instance), the exception
is caught inside extract_keywords and the success payload is the
one-element list holding the error message, while null and booleans are
legal slice stops and produce ordinary slicing. -/
theorem C10_keywords_no_validation (s : String) (mk : JsonVal)
    (h : ¬ pyStrip s = "") :
    (∃ ks, api_keywords (some (.str s)) (some mk) = .ok ks) ∧
    (∀ e, sliceIndex mk = .error e →
      api_keywords (some (.str s)) (some mk) =
        .ok ["Error extracting keywords: " ++ e]) := by
  constructor
  · refine ⟨extract_keywords_dyn (pyStrip s) (some mk |>.getD (.int 10)), ?_⟩
    simp [api_keywords, single_text_validation, h]
  · intro e he
    simp [api_keywords, single_text_validation, h, extract_keywords_dyn, he]

theorem C10_keywords_no_validation_witness :
    ¬ pyStrip "keyword keyword" = "" ∧
    ((∃ ks, api_keywords (some (.str "keyword keyword")) (some (.str "x")) = .ok ks) ∧
      (∀ e, sliceIndex (.str "x") = .error e →
        api_keywords (some (.str "keyword keyword")) (some (.str "x")) =
          .ok ["Error extracting keywords: " ++ e])) :=
  ⟨by decide, C10_keywords_no_validation "keyword keyword" (.str "x") (by decide)⟩
